import Mathlib

/-!
Shallow embedding of the YT browser-automation toolkit, covering the
credential store (`src/security/credential_manager.py`), the session store
(`src/core/session_manager.py`), the login orchestrator
(`src/automation/login_handler.py`), the browser wrapper
(`src/core/browser_manager.py`), the human-behavior simulator
(`src/automation/human_simulator.py`) and the fingerprint/context selectors
(`src/security/fingerprint_spoofing.py`).

Python conventions used throughout:
- Python floats are modelled as rationals (`Rat`);
- a raised exception is an `Except.error` carrying a `PyErr`;
- `try/except` blocks are modelled by pattern matching on the `Except`;
- library randomness (`random.choice`, `random.uniform`, ...) is modelled by
  oracle arguments so that theorems quantify over every possible draw;
- Fernet authenticated symmetric encryption is modelled symbolically: a
  ciphertext remembers the key it was produced with and decryption succeeds,
  returning the exact plaintext, iff the same key is supplied; any other
  input (wrong key, or bytes that are not a Fernet token) raises
  `InvalidToken`.
-/

/-- Python exceptions that the embedded code can raise. -/
inductive PyErr
  | invalidToken
  | attributeError (msg : String)
  | unboundLocal (name : String)
  | driver (code : Nat)
  | other (msg : String)
  deriving DecidableEq, Repr

/-- Symbolic Fernet ciphertext: the key it was encrypted under plus the
exact plaintext payload. -/
structure FernetCt (α : Type) where
  key : Nat
  payload : α
  deriving DecidableEq, Repr

/-- `Fernet(key).encrypt(data)`. -/
def fernet_encrypt {α : Type} (key : Nat) (data : α) : FernetCt α :=
  ⟨key, data⟩

/-- `Fernet(key).decrypt(ct)`: returns the exact plaintext iff the key
matches, otherwise raises `InvalidToken`. -/
def fernet_decrypt {α : Type} (key : Nat) (ct : FernetCt α) : Except PyErr α :=
  if ct.key = key then .ok ct.payload else .error .invalidToken

/-- Bytes sitting in an encrypted-store file: either a genuine Fernet token
or arbitrary non-token bytes (corruption). -/
inductive Blob (α : Type)
  | cipher (ct : FernetCt α)
  | garbage (raw : Nat)
  deriving DecidableEq, Repr

/-- Decrypting the raw bytes of a stored file with a key: corrupt bytes can
never decrypt, a token decrypts only under its own key. -/
def blob_decrypt {α : Type} (key : Nat) : Blob α → Except PyErr α
  | .cipher ct => fernet_decrypt key ct
  | .garbage _ => .error .invalidToken

/-! ## Credential store (`src/security/credential_manager.py`) -/

/-- The JSON object built by `CredentialManager.store_credentials`
(lines 62-66). -/
structure CredJson where
  youtube_email : String
  youtube_password : String
  created_at : String
  deriving DecidableEq, Repr

/-- The `{email, password}` dict returned by `load_credentials`. -/
structure Creds where
  email : String
  password : String
  deriving DecidableEq, Repr

/-- State of a `CredentialManager`: the derived Fernet key (master password
through PBKDF2 with the persisted salt, `_get_cipher`) and the contents of
`.credentials.enc`, `none` when the file does not exist. -/
structure CredState where
  key : Nat
  cred_file : Option (Blob CredJson)
  deriving DecidableEq, Repr

/-- `os.time()` as called at `credential_manager.py:65`.  The Python `os`
module has no attribute `time` (the timestamp lives in the `time` module),
so this call raises `AttributeError` unconditionally. -/
def os_time : Except PyErr Rat :=
  .error (.attributeError "module os has no attribute time")

/-- `CredentialManager.store_credentials` (lines 59-79): builds the
credentials dict — whose `created_at` field evaluates `str(os.time())` —
encrypts it and writes `.credentials.enc`; any exception is caught and the
method returns `False` leaving the store untouched. -/
def store_credentials (st : CredState) (youtube_email youtube_password : String) :
    Bool × CredState :=
  let body : Except PyErr CredJson := do
    let t ← os_time
    pure ⟨youtube_email, youtube_password, toString t⟩
  match body with
  | .error _ => (false, st)
  | .ok creds =>
      (true, { st with cred_file := some (.cipher (fernet_encrypt st.key creds)) })

/-- `CredentialManager.load_credentials` (lines 81-102): `None` when the
file is absent; otherwise decrypt and return the `{email, password}` pair,
with any exception (e.g. `InvalidToken`) caught and turned into `None`. -/
def load_credentials (st : CredState) : Option Creds :=
  match st.cred_file with
  | none => none
  | some blob =>
      match blob_decrypt st.key blob with
      | .error _ => none
      | .ok c => some ⟨c.youtube_email, c.youtube_password⟩

/-! ## Session store (`src/core/session_manager.py`, `SessionStorage`) -/

/-- A JSON string-to-string object (local/session storage snapshots). -/
abbrev StrMap := List (String × String)

/-- The session payload built by `SessionStorage.save_session_data`
(lines 72-78): cookies, the two storage snapshots, the save timestamp and a
version tag. -/
structure SessData where
  cookies : List StrMap
  local_storage : StrMap
  session_storage : StrMap
  timestamp : Rat
  version : String
  deriving DecidableEq, Repr

/-- State of a `SessionStorage`: the Fernet key from `.session_key` and the
map from session id to the bytes of `<session_id>.session`. -/
structure SessState where
  key : Nat
  files : List (String × Blob SessData)
  deriving DecidableEq, Repr

/-- Write (or overwrite) the file for one session id. -/
def setFile (fs : List (String × Blob SessData)) (sid : String)
    (b : Blob SessData) : List (String × Blob SessData) :=
  match fs with
  | [] => [(sid, b)]
  | (k, v) :: rest => if k = sid then (sid, b) :: rest else (k, v) :: setFile rest sid b

/-- Read the file for one session id, `none` when it does not exist. -/
def getFile (fs : List (String × Blob SessData)) (sid : String) :
    Option (Blob SessData) :=
  match fs with
  | [] => none
  | (k, v) :: rest => if k = sid then some v else getFile rest sid

/-- `SessionStorage.save_session_data` (lines 68-94): builds the session
dict with `local_storage or {}` / `session_storage or {}` defaults and
`time.time()` (passed here as `now`), serializes, encrypts under the store
key, writes `<session_id>.session` and returns `True`. -/
def save_session_data (st : SessState) (session_id : String)
    (cookies : List StrMap) (local_storage session_storage : Option StrMap)
    (now : Rat) : Bool × SessState :=
  let data : SessData :=
    ⟨cookies, local_storage.getD [], session_storage.getD [], now, "1.0"⟩
  (true,
    { st with files := setFile st.files session_id (.cipher (fernet_encrypt st.key data)) })

/-- `SessionStorage.load_session_data` (lines 96-122): `None` when the file
is absent; decrypt with the store key — a raised `InvalidToken` is caught by
the `except` and becomes `None`; a record whose age
`(time.time() - timestamp) / 3600` exceeds 168 hours is expired and also
yields `None`; otherwise the saved data is returned. -/
def load_session_data (st : SessState) (session_id : String) (now : Rat) :
    Option SessData :=
  match getFile st.files session_id with
  | none => none
  | some blob =>
      match blob_decrypt st.key blob with
      | .error _ => none
      | .ok data =>
          if (now - data.timestamp) / 3600 > 168 then none else some data

/-! ## Credential resolution chain (`CredentialManager.get_credentials`) -/

/-- Environment of one credential-resolution run: the two environment
variables (`None` when unset) and the interactive answers typed by the
operator in `setup_credentials_interactively`. -/
structure CredEnv where
  env_email : Option String
  env_password : Option String
  change_answer : String
  input_email : String
  input_password : String
  input_confirm : String
  deriving DecidableEq, Repr

/-- Python truthiness of an optional string: `None` and `""` are falsy. -/
def truthy : Option String → Bool
  | none => false
  | some s => !(s == "")

/-- Python's `str.strip()`: drop leading and trailing whitespace. -/
def pyStrip (s : String) : String :=
  ⟨(((s.data.dropWhile Char.isWhitespace).reverse.dropWhile Char.isWhitespace).reverse)⟩

/-- Python's `str.lower()`. -/
def pyLower (s : String) : String :=
  ⟨s.data.map Char.toLower⟩

/-- `CredentialManager.get_credentials_from_env` (lines 140-150): returns
the pair only when both `YOUTUBE_EMAIL` and `YOUTUBE_PASSWORD` are set and
non-empty (`if email and password`). -/
def get_credentials_from_env (e : CredEnv) : Option Creds :=
  if truthy e.env_email && truthy e.env_password then
    some ⟨e.env_email.getD "", e.env_password.getD ""⟩
  else none

/-- `CredentialManager.setup_credentials_interactively` (lines 104-138):
if credentials already load and the operator answers anything but `s`, keep
them; otherwise prompt email/password/confirmation, reject empty or
mismatched input, and store via `store_credentials`. -/
def setup_credentials_interactively (st : CredState) (e : CredEnv) :
    Bool × CredState :=
  let promptNew : Bool × CredState :=
    let email := pyStrip e.input_email
    if email = "" then (false, st)
    else if e.input_password = "" then (false, st)
    else if e.input_password ≠ e.input_confirm then (false, st)
    else store_credentials st email e.input_password
  match load_credentials st with
  | some _ => if pyLower e.change_answer ≠ "s" then (true, st) else promptNew
  | none => promptNew

/-- `CredentialManager.get_credentials` (lines 152-171): encrypted store
first, then the `.env` variables, then the interactive setup (re-loading
the store when the setup reports success). -/
def get_credentials (st : CredState) (e : CredEnv) : Option Creds × CredState :=
  match load_credentials st with
  | some c => (some c, st)
  | none =>
      match get_credentials_from_env e with
      | some c => (some c, st)
      | none =>
          let r := setup_credentials_interactively st e
          if r.1 then (load_credentials r.2, r.2) else (none, r.2)

/-! ## Login handler (`src/automation/login_handler.py`) -/

/-- `LoginStrategy` (lines 17-22). -/
inductive LoginStrategy
  | session_restore
  | automatic_login
  | manual_assisted
  | hybrid_approach
  deriving DecidableEq, Repr

/-- `LoginResult` (lines 25-32). -/
inductive LoginResult
  | success
  | failed
  | requires_2fa
  | account_locked
  | captcha_required
  | manual_intervention
  deriving DecidableEq, Repr

/-- Outcome of one `page.find(selector, timeout)` call: an element was
found, no element was found, or the call raised. -/
inductive FindRes
  | found
  | absent
  | err
  deriving DecidableEq, Repr

/-- A page scripted for the probes: each selector string gets an outcome. -/
abbrev Page := String → FindRes

/-- The selector-probing loop shared by every field lookup in
`login_handler.py` (e.g. lines 174-180): try each candidate in order, a
raised exception or a missing element falls through to the next candidate,
the first found element wins. -/
def probeFirst (page : Page) : List String → Option String
  | [] => none
  | s :: rest =>
      match page s with
      | .found => some s
      | _ => probeFirst page rest

/-- Whether some candidate of the list resolves on the page. -/
def probeAny (page : Page) (selectors : List String) : Bool :=
  (probeFirst page selectors).isSome

/-- `email_selectors` (lines 166-171). -/
def email_selectors : List String :=
  ["input[type=\"email\"]",
   "input[id=\"identifierId\"]",
   "input[name=\"identifier\"]",
   "input[autocomplete=\"username\"]"]

/-- `password_selectors` (lines 206-210). -/
def password_selectors : List String :=
  ["input[type=\"password\"]",
   "input[name=\"password\"]",
   "input[autocomplete=\"current-password\"]"]

/-- `next_selectors` of `_find_next_button` (lines 248-254). -/
def next_selectors : List String :=
  ["button[id=\"identifierNext\"]",
   "button:has-text(\"Próximo\")",
   "button:has-text(\"Next\")",
   "input[type=\"submit\"]",
   "button[type=\"submit\"]"]

/-- `login_selectors` of `_find_login_button` (lines 268-275). -/
def login_selectors : List String :=
  ["button[id=\"passwordNext\"]",
   "button:has-text(\"Entrar\")",
   "button:has-text(\"Sign in\")",
   "button:has-text(\"Login\")",
   "input[type=\"submit\"]",
   "button[type=\"submit\"]"]

/-- `captcha_indicators` of `_detect_captcha` (lines 289-295). -/
def captcha_indicators : List String :=
  ["div[class*=\"captcha\"]",
   "iframe[src*=\"captcha\"]",
   "div[class*=\"recaptcha\"]",
   "text=\"Please verify\"",
   "text=\"Verificação necessária\""]

/-- `success_indicators` of `_check_login_success` (lines 312-318). -/
def success_indicators : List String :=
  ["accounts.google.com/b/0/ManageAccount",
   "myaccount.google.com",
   "text=\"Conta Google\"",
   "button[aria-label*=\"Conta\"]",
   "img[alt*=\"Avatar\"]"]

/-- `error_indicators` of `_check_login_success` (lines 321-328). -/
def error_indicators : List String :=
  ["text=\"Senha incorreta\"",
   "text=\"Wrong password\"",
   "text=\"Couldn't sign in\"",
   "text=\"Não foi possível fazer login\"",
   "div[class*=\"error\"]",
   "div[class*=\"warning\"]"]

/-- `login_indicators` of `_is_logged_in` (lines 398-405). -/
def login_indicators : List String :=
  ["button[aria-label*=\"Conta do Google\"]",
   "button[aria-label*=\"conta\"]",
   "img[id=\"avatar-btn\"]",
   "button[id=\"avatar-btn\"]",
   "yt-img-shadow[id=\"avatar\"]",
   "[aria-label*=\"Avatar\"]"]

/-- `signin_buttons` of `_is_logged_in` (lines 417-421). -/
def signin_buttons : List String :=
  ["a:has-text(\"Fazer login\")",
   "a:has-text(\"Sign in\")",
   "paper-button:has-text(\"FAZER LOGIN\")"]

/-- Scripted environment of one login run: the page contents each probe
phase sees, the outcome of the browser-level session restore, the URL after
password submission and the credential store/environment. -/
structure LoginEnv where
  initial_page : Page
  restore_ok : Bool
  restored_page : Page
  login_page : Page
  password_page : Page
  submit_page : Page
  submit_url : String
  manual_page : Page
  cred_st : CredState
  cred_env : CredEnv

/-- `_is_logged_in` (lines 395-433): a found login indicator means logged
in; otherwise a found sign-in button — or no indicator at all — means not
logged in. -/
def is_logged_in (page : Page) : Bool :=
  if probeAny page login_indicators then true
  else if probeAny page signin_buttons then false
  else false

/-- `_try_session_restore` (lines 97-117): success when already logged in,
or when the browser session restore succeeds and the re-check finds the
login indicator; otherwise failed. -/
def try_session_restore (env : LoginEnv) : LoginResult :=
  if is_logged_in env.initial_page then .success
  else if env.restore_ok && is_logged_in env.restored_page then .success
  else .failed

/-- `_find_next_button` (lines 246-264). -/
def find_next_button (page : Page) : Option String :=
  probeFirst page next_selectors

/-- `_find_login_button` (lines 266-285). -/
def find_login_button (page : Page) : Option String :=
  probeFirst page login_selectors

/-- `_detect_captcha` (lines 287-306). -/
def detect_captcha (page : Page) : Bool :=
  probeAny page captcha_indicators

/-- `_fill_email_field` (lines 162-200): probe the email selectors; when
none resolves report `FAILED`, otherwise type the email, click the next
button when one resolves, and report `SUCCESS`. -/
def fill_email_field (page : Page) : LoginResult :=
  match probeFirst page email_selectors with
  | none => .failed
  | some _ =>
      match find_next_button page with
      | _ => .success

/-- `_fill_password_field` (lines 202-244): probe the password selectors;
when none resolves, report `CAPTCHA_REQUIRED` if a captcha indicator is
present and `FAILED` otherwise; when one resolves, type the password, click
the login button when one resolves, and report `SUCCESS`. -/
def fill_password_field (page : Page) : LoginResult :=
  match probeFirst page password_selectors with
  | none =>
      if detect_captcha page then .captcha_required else .failed
  | some _ =>
      match find_login_button page with
      | _ => .success

/-- Substring test used for the URL check of `_check_login_success`
(Python's `domain in current_url`). -/
def leadMatch : List Char → List Char → Bool
  | [], _ => true
  | _ :: _, [] => false
  | a :: as, b :: bs => a == b && leadMatch as bs

/-- Whether `pat` occurs as a contiguous run of `s`. -/
def listContains (pat : List Char) : List Char → Bool
  | [] => leadMatch pat []
  | c :: rest => leadMatch pat (c :: rest) || listContains pat rest

/-- Python's `pat in s` on strings. -/
def strContains (s pat : String) : Bool :=
  listContains pat.data s.data

/-- `_check_login_success` (lines 308-355): any error indicator means
failure; then any success indicator means success; finally the current URL
is checked against the two account domains. -/
def check_login_success (page : Page) (current_url : String) : Bool :=
  if probeAny page error_indicators then false
  else if probeAny page success_indicators then true
  else
    strContains current_url "myaccount.google.com" ||
      strContains current_url "accounts.google.com/ManageAccount"

/-- `_automatic_login` (lines 119-160): no credentials means
`MANUAL_INTERVENTION`; otherwise fill the email and password fields,
propagating their non-success results, then report `SUCCESS` or `FAILED`
from the post-submission check. -/
def automatic_login (env : LoginEnv) : LoginResult :=
  match (get_credentials env.cred_st env.cred_env).1 with
  | none => .manual_intervention
  | some _ =>
      let r := fill_email_field env.login_page
      if r ≠ .success then r
      else
        let r2 := fill_password_field env.password_page
        if r2 ≠ .success then r2
        else if check_login_success env.submit_page env.submit_url then .success
        else .failed

/-- `_manual_assisted_login` (lines 357-393): after the blocking operator
wait, success iff the login indicator is found on the primary page. -/
def manual_assisted_login (env : LoginEnv) : LoginResult :=
  if is_logged_in env.manual_page then .success else .failed

/-- The fixed strategy order of `_hybrid_login_approach` (lines 73-77). -/
def hybridStrategies : List LoginStrategy :=
  [.session_restore, .automatic_login, .manual_assisted]

/-- Dispatch of one strategy inside the hybrid loop (lines 82-87). -/
def runStrategy (env : LoginEnv) : LoginStrategy → LoginResult
  | .session_restore => try_session_restore env
  | .automatic_login => automatic_login env
  | _ => manual_assisted_login env

/-- The `for strategy, description in strategies` loop of
`_hybrid_login_approach` (lines 79-95), instrumented with the trace of
strategies actually entered: return at the first `SUCCESS`, else continue,
and report `FAILED` after the list is exhausted. -/
def hybridLoop (env : LoginEnv) : List LoginStrategy → LoginResult × List LoginStrategy
  | [] => (.failed, [])
  | s :: rest =>
      let r := runStrategy env s
      if r = .success then (.success, [s])
      else
        let t := hybridLoop env rest
        (t.1, s :: t.2)

/-- `_hybrid_login_approach` (lines 70-95) with its trace of entered
states. -/
def hybrid_login_approach (env : LoginEnv) : LoginResult × List LoginStrategy :=
  hybridLoop env hybridStrategies

/-- `YouTubeLoginHandler.login` (lines 44-68): dispatch on the strategy;
the surrounding `try/except` turns any raised exception into `FAILED` (the
embedded bodies are total, so only the dispatch remains). -/
def login (strategy : LoginStrategy) (env : LoginEnv) : LoginResult :=
  match strategy with
  | .session_restore => try_session_restore env
  | .automatic_login => automatic_login env
  | .manual_assisted => manual_assisted_login env
  | .hybrid_approach => (hybrid_login_approach env).1

/-! ## Browser wrapper (`src/core/browser_manager.py`) -/

/-- Python's `try/except` over the `Except` monad: evaluate the body and
hand any raised exception to the handler. -/
def pyTry {α : Type} (body : Except PyErr α) (handler : PyErr → Except PyErr α) :
    Except PyErr α :=
  match body with
  | .ok a => .ok a
  | .error e => handler e

/-- The cookies/url/timestamp dict of `browser_manager`'s
`last_session.json` (lines 314-318). -/
structure BMSessData where
  cookies : List StrMap
  url : String
  timestamp : Rat
  deriving DecidableEq, Repr

/-- Scripted outcomes of the underlying driver-library calls made by
`BrowserManager`: each field is the result of one external call, an
`Except.error` meaning that call raised. -/
structure DriverEnv where
  playwright_available : Bool
  start_res : Except PyErr Unit
  launch_res : Except PyErr Unit
  context_res : Except PyErr Unit
  page_res : Except PyErr Unit
  stealth_res : Except PyErr Unit
  goto_res : Except PyErr Unit
  screenshot_res : Except PyErr String
  close_res : Except PyErr Unit
  last_session : Option (Except PyErr BMSessData)
  add_cookies_res : Except PyErr Unit

/-- `BrowserManager.launch_stealth_browser` (lines 47-124): start
Playwright, launch Chromium, create the fingerprinted context and page and
apply the stealth scripts.  The `except` clause prints, runs `cleanup()` —
which swallows its own errors — and then `raise`s, so every driver failure
propagates to the caller. -/
def launch_stealth_browser (env : DriverEnv) : Except PyErr Unit :=
  let body : Except PyErr Unit := do
    if !env.playwright_available then
      throw (.other "Playwright não está disponível")
    env.start_res
    env.launch_res
    env.context_res
    env.page_res
    env.stealth_res
  pyTry body (fun e => .error e)

/-- `BrowserManager.navigate_safely` (lines 192-215): delay, `page.goto`,
the internally-caught `_verify_page_load`, delay, `True`; any exception is
caught and becomes `False`. -/
def navigate_safely (env : DriverEnv) : Except PyErr Bool :=
  pyTry (do env.goto_res; pure true) (fun _ => pure false)

/-- `BrowserManager.take_screenshot` (lines 244-266): the written path on
success, `""` when the driver call raises. -/
def take_screenshot (env : DriverEnv) : Except PyErr String :=
  pyTry (do let p ← env.screenshot_res; pure p) (fun _ => pure "")

/-- `BrowserManager.close_browser` (lines 306-330): save the session file,
close the browser, and swallow any exception. -/
def close_browser (env : DriverEnv) : Except PyErr Unit :=
  pyTry (do env.close_res) (fun _ => pure ())

/-- `BrowserManager.restore_session` (lines 332-365): `False` when
`last_session.json` is absent or the record is older than 86400 seconds;
otherwise re-add the cookies, optionally navigate to the recorded URL, and
report `True`; any exception is caught and becomes `False`. -/
def restore_session (env : DriverEnv) (now : Rat) : Except PyErr Bool :=
  let body : Except PyErr Bool := do
    match env.last_session with
    | none => pure false
    | some r => do
        let data ← r
        if now - data.timestamp > 86400 then pure false
        else do
          env.add_cookies_res
          if data.url ≠ "about:blank" then
            let _ ← navigate_safely env
            pure true
          else pure true
  pyTry body (fun _ => pure false)

/-! ## Human-behavior simulation (`src/automation/human_simulator.py`) -/

/-- Oracles for the numeric library calls of `human_mouse_movement`:
`sqrtFn` models `math.sqrt`, `sin_pi_mul t` models `math.sin(t * math.pi)`,
and `uniform step slot lo hi` is the `random.uniform(lo, hi)` draw of slot
`slot` in loop iteration `step`. -/
structure SimEnv where
  sqrtFn : Rat → Rat
  sin_pi_mul : Rat → Rat
  uniform : Nat → Nat → Rat → Rat → Rat

/-- Python's `int()` truncation toward zero on a float. -/
def pyInt (q : Rat) : Int :=
  if 0 ≤ q then q.floor else -((-q).floor)

/-- `_ease_in_out_cubic` (lines 135-140). -/
def ease_in_out_cubic (t : Rat) : Rat :=
  if t < 1/2 then 4 * t * t * t else 1 - ((-2 * t + 2) ^ 3) / 2

/-- `mouse_patterns['curve_intensity']` from `_load_mouse_patterns`
(line 42). -/
def curve_intensity : Rat := 3/10

/-- `_calculate_curve_offset` (lines 142-150): a sinusoidal factor times
two fresh `random.uniform(-1, 1)` draws. -/
def calculate_curve_offset (env : SimEnv) (step : Nat) (progress intensity : Rat) :
    Rat × Rat :=
  let curve_factor := env.sin_pi_mul progress * intensity * curve_intensity
  (curve_factor * env.uniform step 0 (-1) 1,
   curve_factor * env.uniform step 1 (-1) 1)

/-- One iteration of the `for step in range(steps)` loop of
`human_mouse_movement` (lines 109-133), producing the `page.mouse.move`
coordinates.  `distance` is the local variable assigned only in the
`duration is None` branch: reading it while unassigned raises
`UnboundLocalError`, exactly as in Python. -/
def mouseStep (env : SimEnv) (sx sy ex ey : Rat) (distance : Option Rat)
    (steps : Nat) (step : Nat) : Except PyErr (Rat × Rat) := do
  let progress : Rat := (step : Rat) / ((steps : Rat) - 1)
  let eased := ease_in_out_cubic progress
  let cx := sx + (ex - sx) * eased
  let cy := sy + (ey - sy) * eased
  match distance with
  | none => throw (.unboundLocal "distance")
  | some d =>
      let co := calculate_curve_offset env step progress (d / 4)
      let cx := cx + co.1 + env.uniform step 2 (-2) 2
      let cy := cy + co.2 + env.uniform step 3 (-2) 2
      pure (cx, cy)

/-- The `steps = max(10, int(duration * 60))` bound and the
`for step in range(steps)` loop of `human_mouse_movement`
(lines 107-133). -/
def mouseTrajectory (env : SimEnv) (sx sy ex ey : Rat) (distance : Option Rat)
    (dur : Rat) : Except PyErr (List (Rat × Rat)) :=
  let steps : Nat := max 10 (pyInt (dur * 60)).toNat
  (List.range steps).mapM (mouseStep env sx sy ex ey distance steps)

/-- `human_mouse_movement` (lines 99-133): when `duration` is `None`, the
local `distance` is computed with `math.sqrt` and the duration derived from
it; otherwise `distance` is never assigned.  The loop then emits the eased,
curved, jittered trajectory — or raises at its first read of the unassigned
`distance`. -/
def human_mouse_movement (env : SimEnv) (sx sy ex ey : Rat)
    (duration? : Option Rat) : Except PyErr (List (Rat × Rat)) :=
  match duration? with
  | none =>
      let d := env.sqrtFn ((ex - sx) ^ 2 + (ey - sy) ^ 2)
      mouseTrajectory env sx sy ex ey (some d) (max (3/10) (min 2 (d / 500)))
  | some d => mouseTrajectory env sx sy ex ey none d

/-! ## Fingerprint and context selection (`src/security/fingerprint_spoofing.py`) -/

/-- `BrowserFingerprint` (lines 15-26). -/
structure BrowserFingerprint where
  user_agent : String
  viewport_width : Nat
  viewport_height : Nat
  language : String
  timezone : String
  platform : String
  plugins : List String
  fonts : List String
  webgl_vendor : String
  webgl_renderer : String
  deriving DecidableEq, Repr

/-- `_load_brazilian_fingerprints` (lines 36-72): the fixed three-entry
table. -/
def brazilian_fingerprints : List BrowserFingerprint :=
  [{ user_agent := "Mozilla/5.0 (Windows NT 10.0; Win64; x64) AppleWebKit/537.36 (KHTML, like Gecko) Chrome/118.0.0.0 Safari/537.36",
     viewport_width := 1366, viewport_height := 768,
     language := "pt-BR,pt;q=0.9,en;q=0.8",
     timezone := "America/Sao_Paulo",
     platform := "Win32",
     plugins := ["Chrome PDF Plugin", "Native Client"],
     fonts := ["Arial", "Times New Roman", "Courier New", "Verdana"],
     webgl_vendor := "Google Inc. (Intel)",
     webgl_renderer := "ANGLE (Intel, Intel(R) HD Graphics 620 Direct3D11 vs_5_0 ps_5_0, D3D11)" },
   { user_agent := "Mozilla/5.0 (Windows NT 10.0; Win64; x64) AppleWebKit/537.36 (KHTML, like Gecko) Chrome/117.0.0.0 Safari/537.36",
     viewport_width := 1920, viewport_height := 1080,
     language := "pt-BR,pt;q=0.9,en;q=0.8",
     timezone := "America/Sao_Paulo",
     platform := "Win32",
     plugins := ["Chrome PDF Plugin", "Native Client"],
     fonts := ["Arial", "Times New Roman", "Calibri", "Segoe UI"],
     webgl_vendor := "Google Inc. (NVIDIA)",
     webgl_renderer := "ANGLE (NVIDIA, NVIDIA GeForce GTX 1060 6GB Direct3D11 vs_5_0 ps_5_0, D3D11)" },
   { user_agent := "Mozilla/5.0 (Macintosh; Intel Mac OS X 10_15_7) AppleWebKit/537.36 (KHTML, like Gecko) Chrome/118.0.0.0 Safari/537.36",
     viewport_width := 1440, viewport_height := 900,
     language := "pt-BR,pt;q=0.9,en;q=0.8",
     timezone := "America/Sao_Paulo",
     platform := "MacIntel",
     plugins := ["Chrome PDF Plugin", "Native Client"],
     fonts := ["Arial", "Helvetica", "Times", "Courier"],
     webgl_vendor := "Apple Inc.",
     webgl_renderer := "Apple GPU" }]

/-- `AdvancedStealthEngine.select_random_fingerprint` (lines 74-77):
`random.choice` draws one position of the table; the drawn position is the
oracle argument. -/
def select_random_fingerprint (i : Fin brazilian_fingerprints.length) :
    BrowserFingerprint :=
  brazilian_fingerprints.get i

/-- One entry of `ContextRotator.browser_contexts`. -/
structure BrowserContext where
  os_name : String
  browser : String
  resolution : String
  timezone : String
  profile_dir : String
  deriving DecidableEq, Repr

/-- `ContextRotator.browser_contexts` (lines 227-249). -/
def browser_contexts : List BrowserContext :=
  [{ os_name := "Windows 10", browser := "Chrome 118", resolution := "1920x1080",
     timezone := "America/Sao_Paulo", profile_dir := "profile_win_chrome118" },
   { os_name := "Windows 11", browser := "Chrome 117", resolution := "1366x768",
     timezone := "America/Sao_Paulo", profile_dir := "profile_win11_chrome117" },
   { os_name := "macOS 14", browser := "Chrome 118", resolution := "1440x900",
     timezone := "America/Sao_Paulo", profile_dir := "profile_mac_chrome118" }]

/-- Placeholder context for the (unreachable on the maintained invariant)
out-of-range list access. -/
def contextDefault : BrowserContext :=
  ⟨"", "", "", "", ""⟩

/-- `ContextRotator.get_next_context` (lines 252-256): return the entry at
`current_context_index` and advance the index modulo the table length. -/
def get_next_context (current_context_index : Nat) : BrowserContext × Nat :=
  (browser_contexts.getD current_context_index contextDefault,
   (current_context_index + 1) % browser_contexts.length)

/-- `current_context_index` after `n` calls to `get_next_context`, starting
from the `__init__` value 0 (line 250). -/
def rotatorStateAfter : Nat → Nat
  | 0 => 0
  | n + 1 => (get_next_context (rotatorStateAfter n)).2

/-- `ContextRotator.get_random_context` (lines 258-260). -/
def get_random_context (i : Fin browser_contexts.length) : BrowserContext :=
  browser_contexts.get i

/-! ## Concrete scenario data used to instantiate the theorems -/

/-- A scripted page on which exactly the listed selectors resolve. -/
def probePage (found : List String) : Page :=
  fun s => if s ∈ found then .found else .absent

/-- A fresh credential manager: derived key 0, no `.credentials.enc`. -/
def stFresh : CredState := ⟨0, none⟩

/-- A run with no environment variables and empty interactive input. -/
def noCredEnv : CredEnv := ⟨none, none, "", "", "", ""⟩

/-- A run whose environment variables do provide credentials. -/
def envCreds : CredEnv :=
  { noCredEnv with env_email := some "user@example.com", env_password := some "pw" }

/-- A login run in which credentials are available, the sign-in page shows
the email field, the password step shows a captcha instead of the password
field, and neither the session check nor the manual step ever finds a
login indicator. -/
def capEnv : LoginEnv where
  initial_page := probePage []
  restore_ok := false
  restored_page := probePage []
  login_page := probePage ["input[type=\"email\"]"]
  password_page := probePage ["div[class*=\"captcha\"]"]
  submit_page := probePage []
  submit_url := ""
  manual_page := probePage []
  cred_st := stFresh
  cred_env := envCreds

/-- A login run with no credentials from any source, no saved session and
no login indicator on any page. -/
def bareEnv : LoginEnv where
  initial_page := probePage []
  restore_ok := false
  restored_page := probePage []
  login_page := probePage []
  password_page := probePage []
  submit_page := probePage []
  submit_url := ""
  manual_page := probePage []
  cred_st := stFresh
  cred_env := noCredEnv

/-- A session whose record was saved at time 0 (valid token, store key). -/
def oldSessData : SessData := ⟨[], [], [], 0, "1.0"⟩

/-- Session store holding an expired, correctly-keyed record for `"s"`. -/
def stExpired : SessState := ⟨0, [("s", .cipher ⟨0, oldSessData⟩)]⟩

/-- Session store holding a record for `"s"` encrypted under key 1 while
the store key is 0 (key mismatch). -/
def stBadKey : SessState := ⟨0, [("s", .cipher ⟨1, oldSessData⟩)]⟩

/-- A driver run in which `playwright.chromium.launch` raises. -/
def launchFailEnv : DriverEnv where
  playwright_available := true
  start_res := .ok ()
  launch_res := .error (.driver 7)
  context_res := .ok ()
  page_res := .ok ()
  stealth_res := .ok ()
  goto_res := .ok ()
  screenshot_res := .ok "p"
  close_res := .ok ()
  last_session := none
  add_cookies_res := .ok ()

/-- Numeric oracles fixing every library draw to 0. -/
def simEnvZero : SimEnv := ⟨fun _ => 0, fun _ => 0, fun _ _ _ _ => 0⟩

/-! ## Helper lemmas -/

/-- A probe whose head candidate raises or resolves to no element falls
through to the remaining candidates. -/
theorem probeFirst_cons_not_found (page : Page) (c : String) (rest : List String)
    (h : page c ≠ .found) :
    probeFirst page (c :: rest) = probeFirst page rest := by
  cases hpc : page c
  · exact absurd hpc h
  · simp [probeFirst, hpc]
  · simp [probeFirst, hpc]

/-- A probe on which no candidate resolves reports no element. -/
theorem probeFirst_none_of_all (page : Page) :
    ∀ sels : List String, (∀ s ∈ sels, page s ≠ .found) →
      probeFirst page sels = none := by
  intro sels
  induction sels with
  | nil => intro _; rfl
  | cons c rest ih =>
      intro h
      rw [probeFirst_cons_not_found page c rest (h c (by simp))]
      exact ih (fun s hs => h s (by simp [hs]))

/-- Writing a session file makes it readable back. -/
theorem getFile_setFile (fs : List (String × Blob SessData)) (sid : String)
    (b : Blob SessData) : getFile (setFile fs sid b) sid = some b := by
  induction fs with
  | nil => simp [setFile, getFile]
  | cons p rest ih =>
      obtain ⟨k, v⟩ := p
      by_cases hk : k = sid
      · simp [setFile, getFile, hk]
      · simp [setFile, getFile, hk, ih]

/-- A `try/except` whose handler returns a constant always returns
normally. -/
theorem pyTry_pure_exists {α : Type} (body : Except PyErr α) (c : α) :
    ∃ a, pyTry body (fun _ => pure c) = .ok a := by
  cases body with
  | ok a => exact ⟨a, rfl⟩
  | error e => exact ⟨c, rfl⟩

/-- Mapping a step function that can only return normally over a list
returns normally. -/
theorem mapM_ok_of_all {β : Type} (f : Nat → Except PyErr β)
    (h : ∀ x, ∃ y, f x = .ok y) :
    ∀ l : List Nat, ∃ ys, l.mapM f = .ok ys := by
  intro l
  induction l with
  | nil => exact ⟨[], rfl⟩
  | cons a t ih =>
      obtain ⟨y, hy⟩ := h a
      obtain ⟨ys, hys⟩ := ih
      refine ⟨y :: ys, ?_⟩
      rw [List.mapM_cons, hy, hys]
      rfl

/-- A loop whose first iteration raises propagates that exception. -/
theorem mapM_error_of_head {β : Type} (f : Nat → Except PyErr β) (e : PyErr)
    (a : Nat) (t : List Nat) (ha : f a = .error e) :
    (a :: t).mapM f = .error e := by
  rw [List.mapM_cons, ha]
  rfl

/-- With no login indicator on the page, `_is_logged_in` reports `False`. -/
theorem is_logged_in_eq_false (page : Page)
    (h : probeAny page login_indicators = false) :
    is_logged_in page = false := by
  unfold is_logged_in
  rw [h]
  simp

/-- Case analysis of the hybrid loop over its three scripted sub-results. -/
theorem hybrid_cases (env : LoginEnv) :
    hybrid_login_approach env =
      if try_session_restore env = .success then
        (.success, [.session_restore])
      else if automatic_login env = .success then
        (.success, [.session_restore, .automatic_login])
      else if manual_assisted_login env = .success then
        (.success, hybridStrategies)
      else
        (.failed, hybridStrategies) := by
  by_cases h1 : try_session_restore env = .success <;>
    by_cases h2 : automatic_login env = .success <;>
      by_cases h3 : manual_assisted_login env = .success <;>
        simp [hybrid_login_approach, hybridStrategies, hybridLoop, runStrategy,
          h1, h2, h3]

/-! ## Claim theorems -/

/-- Claim C1 (code bug): the credential round-trip fails on every input
because `store_credentials` evaluates `str(os.time())` — and the Python
`os` module has no `time` attribute — so the raised `AttributeError` is
caught, the method returns `False`, no ciphertext is written, and the
subsequent `load_credentials()` returns `None` instead of the stored
`{email, password}` pair. -/
theorem cred_store_roundtrip_fails :
    store_credentials stFresh "user@example.com" "hunter2" = (false, stFresh) ∧
    load_credentials (store_credentials stFresh "user@example.com" "hunter2").2 = none :=
  ⟨rfl, rfl⟩

/-- Claim C2: under the hybrid policy the orchestrator enters
SESSION_RESTORE, AUTOMATIC_LOGIN, MANUAL_ASSISTED in that fixed order, each
at most once, halts returning success at the first state that yields
success, and terminates with overall `failed` when no state succeeds — for
every scripted environment. -/
theorem hybrid_login_state_machine (env : LoginEnv) :
    hybrid_login_approach env =
      if try_session_restore env = .success then
        (.success, [.session_restore])
      else if automatic_login env = .success then
        (.success, [.session_restore, .automatic_login])
      else if manual_assisted_login env = .success then
        (.success, hybridStrategies)
      else
        (.failed, hybridStrategies) :=
  hybrid_cases env

/-- Claim C3: `load_session_data` returns `None` for any stored record
whose saved timestamp is more than 168 hours older than the current time,
and returns `None` — never a plaintext, never an exception — whenever the
stored bytes cannot be decrypted with the current store key. -/
theorem load_session_expired_or_undecryptable (st : SessState) (sid : String)
    (now : Rat) :
    (∀ data : SessData,
        getFile st.files sid = some (.cipher (fernet_encrypt st.key data)) →
        (now - data.timestamp) / 3600 > 168 →
        load_session_data st sid now = none) ∧
    (∀ (blob : Blob SessData) (e : PyErr),
        getFile st.files sid = some blob →
        blob_decrypt st.key blob = .error e →
        load_session_data st sid now = none) := by
  constructor
  · intro data hget hage
    simp [load_session_data, hget, blob_decrypt, fernet_decrypt, fernet_encrypt, hage]
  · intro blob e hget hdec
    simp [load_session_data, hget, hdec]

/-- Witness for C3: a record saved at time 0 and loaded at time 700000
(≈194 hours later) is reported absent, and a record encrypted under key 1
in a store whose key is 0 is also reported absent. -/
theorem load_session_expired_or_undecryptable_witness :
    load_session_data stExpired "s" 700000 = none ∧
    load_session_data stBadKey "s" 0 = none := by
  constructor
  · exact (load_session_expired_or_undecryptable stExpired "s" 700000).1
      oldSessData rfl (by norm_num [oldSessData])
  · exact (load_session_expired_or_undecryptable stBadKey "s" 0).2
      (.cipher ⟨1, oldSessData⟩) .invalidToken rfl rfl

/-- Counterexample to claim C4 as stated: in a run where the captcha is
detected during the automatic-login state (that state yields
`CAPTCHA_REQUIRED`), the hybrid orchestrator's returned outcome is
`FAILED`, not `CAPTCHA_REQUIRED` — the detection is not the hybrid
policy's terminal value. -/
theorem hybrid_returns_failed_despite_captcha :
    automatic_login capEnv = .captcha_required ∧
    login .hybrid_approach capEnv = .failed :=
  ⟨rfl, rfl⟩

/-- Claim C4 as amended: captcha detection short-circuits the login
attempt — the attempt yields `CAPTCHA_REQUIRED` and under the
automatic-login policy the orchestrator returns exactly that — but under
the hybrid policy the orchestrator proceeds to the manual-assisted state
and never returns `CAPTCHA_REQUIRED`. -/
theorem captcha_terminal_in_attempt_not_in_hybrid (env : LoginEnv)
    (h1 : probeFirst env.password_page password_selectors = none)
    (h2 : detect_captcha env.password_page = true)
    (h3 : (probeFirst env.login_page email_selectors).isSome = true)
    (h4 : ((get_credentials env.cred_st env.cred_env).1).isSome = true) :
    login .automatic_login env = .captcha_required ∧
    login .hybrid_approach env ≠ .captcha_required := by
  have hfp : fill_password_field env.password_page = .captcha_required := by
    simp [fill_password_field, h1, h2]
  have hfe : fill_email_field env.login_page = .success := by
    obtain ⟨s, hs⟩ := Option.isSome_iff_exists.mp h3
    simp [fill_email_field, hs]
  have hauto : automatic_login env = .captcha_required := by
    unfold automatic_login
    obtain ⟨c, hc⟩ := Option.isSome_iff_exists.mp h4
    rw [hc]
    simp [hfe, hfp]
  refine ⟨hauto, ?_⟩
  intro hcontra
  rw [show login .hybrid_approach env = (hybrid_login_approach env).1 from rfl,
    hybrid_cases env] at hcontra
  split_ifs at hcontra

/-- Witness for the amended C4 at the concrete captcha scenario. -/
theorem captcha_terminal_in_attempt_not_in_hybrid_witness :
    login .automatic_login capEnv = .captcha_required ∧
    login .hybrid_approach capEnv ≠ .captcha_required :=
  captcha_terminal_in_attempt_not_in_hybrid capEnv rfl rfl rfl rfl

/-- Counterexample to claim C5 as stated: when `playwright.chromium.launch`
raises, `launch_stealth_browser` — after printing and running `cleanup()` —
re-raises, so the raw driver exception propagates out of a wrapper method
to its caller. -/
theorem launch_propagates_driver_error :
    launch_stealth_browser launchFailEnv = .error (.driver 7) := rfl

/-- Claim C5 as amended: `navigate_safely`, `take_screenshot`,
`close_browser` and `restore_session` catch every driver failure and
convert it to a boolean (or empty) result, never letting an exception
escape; `launch_stealth_browser` is the exception, re-raising after its
cleanup. -/
theorem wrapper_methods_contain_failures (env : DriverEnv) (now : Rat) :
    (∃ b, navigate_safely env = .ok b) ∧
    (∃ s, take_screenshot env = .ok s) ∧
    (∃ u, close_browser env = .ok u) ∧
    (∃ b, restore_session env now = .ok b) := by
  refine ⟨?_, ?_, ?_, ?_⟩
  · unfold navigate_safely
    exact pyTry_pure_exists _ false
  · unfold take_screenshot
    exact pyTry_pure_exists _ ""
  · unfold close_browser
    exact pyTry_pure_exists _ ()
  · unfold restore_session
    exact pyTry_pure_exists _ false

/-- Claim C6 (code bug): `human_mouse_movement` reads the local variable
`distance` inside the loop, but `distance` is only ever assigned in the
`duration is None` branch, so every call that passes an explicit duration —
whatever the coordinates, oracles and duration value — raises
`UnboundLocalError` at the first loop step, while the same call with the
duration omitted returns its trajectory normally. -/
theorem mouse_movement_unbound_distance (env : SimEnv) (sx sy ex ey d : Rat) :
    human_mouse_movement env sx sy ex ey (some d) =
      .error (.unboundLocal "distance") ∧
    ∃ traj, human_mouse_movement env sx sy ex ey none = .ok traj := by
  constructor
  · show mouseTrajectory env sx sy ex ey none d = .error (.unboundLocal "distance")
    show (List.range (max 10 (pyInt (d * 60)).toNat)).mapM
        (mouseStep env sx sy ex ey none (max 10 (pyInt (d * 60)).toNat)) =
      .error (.unboundLocal "distance")
    have h10 : 10 ≤ max 10 (pyInt (d * 60)).toNat := Nat.le_max_left _ _
    obtain ⟨m, hm⟩ : ∃ m, max 10 (pyInt (d * 60)).toNat = m + 1 :=
      ⟨max 10 (pyInt (d * 60)).toNat - 1, by omega⟩
    rw [hm, List.range_succ_eq_map]
    exact mapM_error_of_head _ _ 0 _ rfl
  · show ∃ traj,
      mouseTrajectory env sx sy ex ey
        (some (env.sqrtFn ((ex - sx) ^ 2 + (ey - sy) ^ 2)))
        (max (3/10) (min 2 (env.sqrtFn ((ex - sx) ^ 2 + (ey - sy) ^ 2) / 500))) =
      .ok traj
    exact mapM_ok_of_all _ (fun x => ⟨_, rfl⟩) _

/-- Claim C7: the random fingerprint selector only ever returns entries of
the fixed three-entry table, and the rotating context selector, after `n`
prior calls from its initial index 0, returns the table entry at position
`n mod 3` and advances its index to `(n+1) mod 3` — the fixed order with
wrap-around. -/
theorem fingerprint_table_and_rotation (i : Fin brazilian_fingerprints.length)
    (n : Nat) :
    select_random_fingerprint i ∈ brazilian_fingerprints ∧
    (get_next_context (rotatorStateAfter n)).1 =
      browser_contexts.getD (n % browser_contexts.length) contextDefault ∧
    (get_next_context (rotatorStateAfter n)).2 =
      (n + 1) % browser_contexts.length := by
  have hlen : browser_contexts.length = 3 := rfl
  have hmod : ∀ m : Nat, rotatorStateAfter m = m % 3 := by
    intro m
    induction m with
    | zero => rfl
    | succ k ih =>
        show (get_next_context (rotatorStateAfter k)).2 = (k + 1) % 3
        rw [ih]
        show (k % 3 + 1) % browser_contexts.length = (k + 1) % 3
        rw [hlen]
        omega
  refine ⟨List.get_mem _ i.1 i.2, ?_, ?_⟩
  · rw [hmod n]
    show browser_contexts.getD (n % 3) contextDefault =
      browser_contexts.getD (n % browser_contexts.length) contextDefault
    rw [hlen]
  · rw [hmod n]
    show (n % 3 + 1) % browser_contexts.length = (n + 1) % browser_contexts.length
    rw [hlen]
    omega

/-- Claim C8: if the lookup of a candidate selector raises or finds no
element the probe falls through to the next candidate, and only once every
candidate of the list has failed does the email-field fill report the field
as not found (`FAILED`) and the next-button probe report no button. -/
theorem selector_probe_fall_through (page : Page) (c : String)
    (rest : List String) :
    (page c ≠ .found → probeFirst page (c :: rest) = probeFirst page rest) ∧
    ((∀ s ∈ email_selectors, page s ≠ .found) →
      fill_email_field page = .failed) ∧
    ((∀ s ∈ next_selectors, page s ≠ .found) →
      find_next_button page = none) := by
  refine ⟨fun h => probeFirst_cons_not_found page c rest h, fun h => ?_, fun h => ?_⟩
  · unfold fill_email_field
    rw [probeFirst_none_of_all page email_selectors h]
  · unfold find_next_button
    exact probeFirst_none_of_all page next_selectors h

/-- Witness for C8 on a page where no selector resolves. -/
theorem selector_probe_fall_through_witness :
    probeFirst (probePage []) ("a" :: ["b"]) = probeFirst (probePage []) ["b"] ∧
    fill_email_field (probePage []) = .failed ∧
    find_next_button (probePage []) = none := by
  have h := selector_probe_fall_through (probePage []) "a" ["b"]
  exact ⟨h.1 (by decide), h.2.1 (by decide), h.2.2 (by decide)⟩

/-- Claim C9: with no credentials available from any source, no saved
session, and no logged-in indicator on any page, the login entry point
terminates normally: the automatic policy returns `MANUAL_INTERVENTION`
and the (default) hybrid policy returns the failure outcome `FAILED` — no
exception escapes (the embedded `login` is total). -/
theorem no_credentials_no_session_terminates (env : LoginEnv)
    (hc : (get_credentials env.cred_st env.cred_env).1 = none)
    (hr : env.restore_ok = false)
    (hi : probeAny env.initial_page login_indicators = false)
    (hm : probeAny env.manual_page login_indicators = false) :
    login .automatic_login env = .manual_intervention ∧
    login .hybrid_approach env = .failed := by
  have hauto : automatic_login env = .manual_intervention := by
    unfold automatic_login
    rw [hc]
  have hssr : try_session_restore env = .failed := by
    unfold try_session_restore
    rw [is_logged_in_eq_false _ hi, hr]
    simp
  have hman : manual_assisted_login env = .failed := by
    unfold manual_assisted_login
    rw [is_logged_in_eq_false _ hm]
    simp
  refine ⟨hauto, ?_⟩
  show (hybrid_login_approach env).1 = .failed
  rw [hybrid_cases env]
  simp [hssr, hauto, hman]

/-- Witness for C9 at the bare environment. -/
theorem no_credentials_no_session_terminates_witness :
    login .automatic_login bareEnv = .manual_intervention ∧
    login .hybrid_approach bareEnv = .failed :=
  no_credentials_no_session_terminates bareEnv (by rfl) (by rfl) (by rfl) (by rfl)

/-- Claim C10: `save_session_data` returns `True` and an immediate
`load_session_data` under the same key returns a record whose cookies and
storage snapshots equal the saved values, with omitted storage arguments
replaced by empty maps — for every store, session id and payload. -/
theorem session_store_roundtrip (st : SessState) (sid : String)
    (cookies : List StrMap) (ls ss : Option StrMap) (now : Rat) :
    (save_session_data st sid cookies ls ss now).1 = true ∧
    load_session_data (save_session_data st sid cookies ls ss now).2 sid now =
      some ⟨cookies, ls.getD [], ss.getD [], now, "1.0"⟩ := by
  constructor
  · rfl
  · unfold load_session_data save_session_data
    rw [getFile_setFile]
    simp [blob_decrypt, fernet_decrypt, fernet_encrypt, sub_self]
